import Mathlib

/-!
Verification of the Mandelbrot rendering core of this repository
(src/mandelbrot/mandelbrot.py, src/api/mandelbrot.py,
src/sritata-site/mandelbrot/zoom_mode.py).

Modelling conventions:
* Python float64 arithmetic is modelled exactly over `ℚ`.  Every claim
  settled here either compares two computations that perform the identical
  sequence of arithmetic operations per pixel (so float rounding cancels),
  or evaluates at inputs where the floating computation is exact.
* Pixel grids are modelled as total functions `ℕ → ℕ → _`; only the entries
  with `j < height`, `i < width` correspond to array cells of the source.
  A numpy array `a[j][i]` becomes `a j i`.
* A Python function that can raise an exception for some inputs is embedded
  with an `Option` result: `none` exactly on the raising inputs.  The only
  raising statements in the embedded code are integer/float scalar divisions
  by zero (`ZeroDivisionError`); numpy elementwise division never raises
  (it produces IEEE non-finite values and only emits a warning).
* `width`, `height` are `ℕ` (the callers only produce non-negative sizes);
  iteration targets `max_iter` / `target_iter` are `ℤ` as in Python.
-/

/-! ## Grid Builder (src/mandelbrot/mandelbrot.py, `_build_grid`, lines 78-93;
the same five geometry lines are inlined in `mandelbrot`, lines 25-35). -/

/-- Complex-plane x-coordinate of pixel column `i`:
`x_min + (x_max - x_min) * i / (width - 1)` with
`x_min = x_center - scale`, `x_max = x_center + scale`
(src/mandelbrot/mandelbrot.py lines 25-26, 35 and 79-80, 90).
Only evaluated by the source when `width ≥ 2` (otherwise the enclosing
code raises first), so the `ℚ`-division is by a nonzero number there. -/
def grid_x0 (width : ℕ) (x_center scale : ℚ) (i : ℕ) : ℚ :=
  let x_min := x_center - scale
  let x_max := x_center + scale
  x_min + (x_max - x_min) * i / ((width : ℚ) - 1)

/-- Complex-plane y-coordinate of pixel row `j`:
`y_min + (y_max - y_min) * j / (height - 1)` with
`y_scale = scale * height / width`, `y_min = y_center - y_scale`,
`y_max = y_center + y_scale`
(src/mandelbrot/mandelbrot.py lines 27-29, 32 and 81-83, 88). -/
def grid_y0 (width height : ℕ) (y_center scale : ℚ) (j : ℕ) : ℚ :=
  let y_scale := scale * height / width
  let y_min := y_center - y_scale
  let y_max := y_center + y_scale
  y_min + (y_max - y_min) * j / ((height : ℚ) - 1)

/-- Embeds `_build_grid(width, height, x_center, y_center, scale)`
(src/mandelbrot/mandelbrot.py lines 78-93).  The source returns two
`height × width` arrays with `x[j][i] = grid_x0 i` and `y[j][i] = grid_y0 j`.
`none` models `ZeroDivisionError`, which the source raises exactly when
* `width = 0`: at `y_scale = scale * height / width` (line 81);
* `height = 1`: at the `j / (height - 1)` division (line 88, executed for
  `j = 0` before any `i` division);
* `width = 1` and `height ≥ 2`: at the `i / (width - 1)` division (line 90).
For `height = 0` (and `width ≥ 1`) no loop body runs and empty arrays are
returned, so there is no error.  Note the divisions are NOT guarded with
`max(1, ·)` in this file (only src/api/mandelbrot.py has the guard). -/
def build_grid (width height : ℕ) (x_center y_center scale : ℚ) :
    Option ((ℕ → ℕ → ℚ) × (ℕ → ℕ → ℚ)) :=
  if width = 0 ∨ height = 1 ∨ (width = 1 ∧ 2 ≤ height) then none
  else some (fun _ i => grid_x0 width x_center scale i,
             fun j _ => grid_y0 width height y_center scale j)

/-! ## Escape-Time Engine (src/mandelbrot/mandelbrot.py, `mandelbrot`,
lines 21-49). -/

/-- One-pixel escape loop of `mandelbrot` (lines 37-47):
`while x*x + y*y <= 4.0 and iteration < max_iter: step`.
`fuel` is `max_iter - iteration`, so `fuel = 0` is exactly the exit case
`iteration ≥ max_iter`; the returned value is the final `iteration`. -/
def escape_loop (x0 y0 : ℚ) : ℚ → ℚ → ℕ → ℕ → ℕ
  | _, _, iteration, 0 => iteration
  | x, y, iteration, fuel + 1 =>
    if x * x + y * y ≤ 4 then
      escape_loop x0 y0 (x * x - y * y + x0) (2 * x * y + y0) (iteration + 1) fuel
    else iteration

/-- Embeds `mandelbrot(width, height, max_iter, x_center, y_center, scale)`
(src/mandelbrot/mandelbrot.py lines 21-49).  The grid formulas are the ones
inlined at lines 25-35, identical to `_build_grid`; the `none` cases are the
same `ZeroDivisionError` cases as for `build_grid` (no validation of any
kind is performed: `max_iter ≤ 0` simply yields a grid of zeros because the
while loop body never runs, and `scale` is unconstrained).
`div_time[j][i]` is the exit value of the per-pixel escape loop. -/
def mandelbrot (width height : ℕ) (max_iter : ℤ) (x_center y_center scale : ℚ) :
    Option (ℕ → ℕ → ℕ) :=
  if width = 0 ∨ height = 1 ∨ (width = 1 ∧ 2 ≤ height) then none
  else some (fun j i =>
    escape_loop (grid_x0 width x_center scale i)
      (grid_y0 width height y_center scale j) 0 0 0 max_iter.toNat)

/-! ## Serverless API engine (src/api/mandelbrot.py, `mandelbrot`,
lines 9-33).  Identical to the core engine except that the per-pixel
divisions are guarded: `i / max(1, (width - 1))`, `j / max(1, (height - 1))`
(lines 20, 22).  The `y_scale = scale * height / width` line (15) still
raises `ZeroDivisionError` for `width = 0`. -/

/-- Guarded x-coordinate of the API engine (src/api/mandelbrot.py line 22). -/
def api_x0 (width : ℕ) (x_center scale : ℚ) (i : ℕ) : ℚ :=
  let x_min := x_center - scale
  let x_max := x_center + scale
  x_min + (x_max - x_min) * i / ((max 1 (width - 1) : ℕ) : ℚ)

/-- Guarded y-coordinate of the API engine (src/api/mandelbrot.py line 20). -/
def api_y0 (width height : ℕ) (y_center scale : ℚ) (j : ℕ) : ℚ :=
  let y_scale := scale * height / width
  let y_min := y_center - y_scale
  let y_max := y_center + y_scale
  y_min + (y_max - y_min) * j / ((max 1 (height - 1) : ℕ) : ℚ)

/-- Embeds the serverless `mandelbrot` of src/api/mandelbrot.py (lines 9-33):
same escape loop, guarded pixel divisions; the only raising input is
`width = 0` (division by zero computing `y_scale`, line 15). -/
def api_mandelbrot (width height : ℕ) (max_iter : ℤ)
    (x_center y_center scale : ℚ) : Option (ℕ → ℕ → ℕ) :=
  if width = 0 then none
  else some (fun j i =>
    escape_loop (api_x0 width x_center scale i)
      (api_y0 width height y_center scale j) 0 0 0 max_iter.toNat)

/-! ## Incremental Cache Engine (src/mandelbrot/mandelbrot.py lines 53-138). -/

/-- Per-pixel slice of the arrays mutated by `_mandelbrot_iter`:
`zx[j][i]`, `zy[j][i]`, `iters[j][i]`, `div_time[j][i]`. -/
structure PixState where
  zx : ℚ
  zy : ℚ
  iters : ℕ
  div_time : ℕ
  deriving Repr

/-- Body of one outer iteration of `_mandelbrot_iter` for one pixel
(src/mandelbrot/mandelbrot.py lines 59-69): pixels with `div_time ≠ 0` are
skipped; otherwise the orbit advances one step, `iters` is incremented and
`div_time` is set to `iters` exactly when `x*x + y*y > 4.0` for the new
`x`, `y` (the source's locals `x = zx² - zy² + x0`, `y = 2·zx·zy + y0` are
inlined here). -/
def mandelbrot_iter_step (x0 y0 : ℚ) (s : PixState) : PixState :=
  if s.div_time = 0 then
    { zx := s.zx * s.zx - s.zy * s.zy + x0,
      zy := 2 * s.zx * s.zy + y0,
      iters := s.iters + 1,
      div_time :=
        if 4 < (s.zx * s.zx - s.zy * s.zy + x0) * (s.zx * s.zx - s.zy * s.zy + x0)
            + (2 * s.zx * s.zy + y0) * (2 * s.zx * s.zy + y0)
        then s.iters + 1 else 0 }
  else s

/-- Finalization pass of `_mandelbrot_iter` (lines 71-75): every pixel still
at `div_time = 0` gets `div_time = iters`. -/
def finalize (s : PixState) : PixState :=
  if s.div_time = 0 then { s with div_time := s.iters } else s

/-- Per-pixel effect of a whole `_mandelbrot_iter(…, start_iter, max_iter)`
call: the outer loop `for iteration in range(start_iter, max_iter)` runs the
step `(max_iter - start_iter).toNat` times, then the pixel is finalized.
The source interleaves the pixel sweeps inside the iteration loop, but each
pixel's cells are read and written only by that pixel, so the per-pixel
result is this function (loop interchange over independent pixels). -/
def mandelbrot_iter_pix (x0 y0 : ℚ) (steps : ℕ) (s : PixState) : PixState :=
  finalize ((mandelbrot_iter_step x0 y0)^[steps] s)

/-- Embeds the cache dict created by `create_cache`
(src/mandelbrot/mandelbrot.py lines 96-114): keys `zx`, `zy`, `iters`,
`x0`, `y0`, `div_time`, `current_iter`. -/
structure Cache where
  zx : ℕ → ℕ → ℚ
  zy : ℕ → ℕ → ℚ
  iters : ℕ → ℕ → ℕ
  x0 : ℕ → ℕ → ℚ
  y0 : ℕ → ℕ → ℚ
  div_time : ℕ → ℕ → ℕ
  current_iter : ℤ

/-- Embeds `_mandelbrot_iter(zx, zy, iters, x0, y0, div_time, start, target)`
(src/mandelbrot/mandelbrot.py lines 53-75) acting on a whole cache:
every pixel is advanced by `mandelbrot_iter_pix`; the geometry arrays
`x0`, `y0` are only read. -/
def mandelbrot_iter (c : Cache) (start target : ℤ) : Cache :=
  let upd := fun j i =>
    mandelbrot_iter_pix (c.x0 j i) (c.y0 j i) ((target - start).toNat)
      ⟨c.zx j i, c.zy j i, c.iters j i, c.div_time j i⟩
  { zx := fun j i => (upd j i).zx,
    zy := fun j i => (upd j i).zy,
    iters := fun j i => (upd j i).iters,
    x0 := c.x0,
    y0 := c.y0,
    div_time := fun j i => (upd j i).div_time,
    current_iter := c.current_iter }

/-- Embeds `create_cache(width, height, x_center, y_center, scale)`
(src/mandelbrot/mandelbrot.py lines 96-114): geometry from `_build_grid`
(so the same `ZeroDivisionError` cases), all state arrays zero,
`current_iter = 0`. -/
def create_cache (width height : ℕ) (x_center y_center scale : ℚ) :
    Option Cache :=
  (build_grid width height x_center y_center scale).map (fun g =>
    { zx := fun _ _ => 0, zy := fun _ _ => 0, iters := fun _ _ => 0,
      x0 := g.1, y0 := g.2, div_time := fun _ _ => 0, current_iter := 0 })

/-- Embeds `compute_from_cache(cache, target_iter)`
(src/mandelbrot/mandelbrot.py lines 117-128): if `target_iter ≤ current_iter`
the cache is returned unchanged (no error, also for negative targets);
otherwise `_mandelbrot_iter` runs from `current_iter` to `target_iter` and
`current_iter` is set to `target_iter`.  No property of the cache other than
its own stored fields is consulted: there is no geometry parameter and no
geometry check.  The source returns `cache["div_time"]` after mutating the
cache in place; here the updated cache is returned. -/
def compute_from_cache (c : Cache) (target_iter : ℤ) : Cache :=
  if target_iter ≤ c.current_iter then c
  else { mandelbrot_iter c c.current_iter target_iter with
         current_iter := target_iter }

/-- Embeds `compute_initial_and_cache` (src/mandelbrot/mandelbrot.py
lines 131-138): create a cache and extend it once to `max_iter`. -/
def compute_initial_and_cache (width height : ℕ) (max_iter : ℤ)
    (x_center y_center scale : ℚ) : Option Cache :=
  (create_cache width height x_center y_center scale).map
    (fun c => compute_from_cache c max_iter)

/-! ## Color Mapper (src/mandelbrot/mandelbrot.py, `color_map`,
lines 141-148).

The source computes, elementwise over the grid,
`norm = sqrt(div_time / max_iter)` and the channels
`r = uint8(255 * clip(3 * (1 - norm), 0, 1))`,
`g = uint8(255 * clip(3 * abs(norm - 0.5), 0, 1))`,
`b = uint8(255 * clip(3 * norm, 0, 1))`.
The embedding is exact over `ℚ`: each channel is written as a case split on
`ρ = div_time / max_iter` (the square of `norm`), and in the unsaturated
branch the `uint8` truncation `⌊255 · 3 · …⌋` is computed with exact
integer square roots, using `⌊√(a/b)⌋ = ⌊⌊√(a·b)⌋ / b⌋` and
`⌈x⌉ = ⌊x⌋ + 1` for non-integer `x` (constants: `765 = 255·3`,
`585225 = 765²`, `2340900 = 1530²`).
numpy never raises here: division of a float array by the int scalar
`max_iter = 0` yields `inf`/`nan` with only a `RuntimeWarning`, and
`sqrt` of a negative value yields `nan` with a warning, so `color_map`
is a total function also for `max_iter ≤ 0`. -/

/-- Floor of the square root of a non-negative rational,
`⌊√(num/den)⌋ = ⌊⌊√(num·den)⌋ / den⌋` (and `0` for negative input). -/
def sqrt_floor (q : ℚ) : ℕ :=
  Nat.sqrt (q.num.toNat * q.den) / q.den

/-- Ceiling of the square root of a non-negative rational:
equals the floor when the root is an integer, floor + 1 otherwise. -/
def sqrt_ceil (q : ℚ) : ℕ :=
  if ((sqrt_floor q : ℚ)) ^ 2 = q then sqrt_floor q else sqrt_floor q + 1

/-- Red channel `uint8(255 * clip(3 * (1 - √ρ), 0, 1))` as a function of
`ρ = div_time / max_iter ≥ 0` (line 144):
saturates to `0` for `√ρ ≥ 1` and to `255` for `√ρ ≤ 2/3`; otherwise
`⌊765·(1 - √ρ)⌋ = 765 - ⌈765·√ρ⌉ = 765 - ⌈√(585225·ρ)⌉`. -/
def r_channel (ρ : ℚ) : ℕ :=
  if 1 ≤ ρ then 0
  else if ρ ≤ 4 / 9 then 255
  else 765 - sqrt_ceil (585225 * ρ)

/-- Green channel `uint8(255 * clip(3 * |√ρ - 1/2|, 0, 1))` (line 145):
saturates to `255` for `√ρ ≤ 1/6` or `√ρ ≥ 5/6`; for `√ρ ≥ 1/2` the value
is `⌊(1530·√ρ - 765)/2⌋ = ⌊(⌊√(2340900·ρ)⌋ - 765)/2⌋`, for `√ρ < 1/2` it is
`⌊(765 - 1530·√ρ)/2⌋ = ⌊(765 - ⌈√(2340900·ρ)⌉)/2⌋` (natural subtraction and
division agree with the real floors on these branches). -/
def g_channel (ρ : ℚ) : ℕ :=
  if ρ ≤ 1 / 36 ∨ 25 / 36 ≤ ρ then 255
  else if 1 / 4 ≤ ρ then (sqrt_floor (2340900 * ρ) - 765) / 2
  else (765 - sqrt_ceil (2340900 * ρ)) / 2

/-- Blue channel `uint8(255 * clip(3 * √ρ, 0, 1))` (line 146):
saturates to `255` for `√ρ ≥ 1/3`; otherwise `⌊765·√ρ⌋ = ⌊√(585225·ρ)⌋`. -/
def b_channel (ρ : ℚ) : ℕ :=
  if 1 / 9 ≤ ρ then 255
  else sqrt_floor (585225 * ρ)

/-- RGB triple for a finite non-negative ratio `ρ = div_time / max_iter`. -/
def finite_rgb (ρ : ℚ) : ℕ × ℕ × ℕ :=
  (r_channel ρ, g_channel ρ, b_channel ρ)

/-- Value of the `uint8` cast applied to `nan` channels.  On the reference
platform (x86-64) the C cast of `nan` to an unsigned byte produces `0`;
numpy only emits a `RuntimeWarning`.  No theorem below depends on this
value, it only occurs for `max_iter ≤ 0` inputs. -/
def nan_cast_rgb : ℕ × ℕ × ℕ :=
  (0, 0, 0)

/-- One pixel of `color_map(div_time, max_iter)` (src/mandelbrot/mandelbrot.py
lines 141-148).  Case split on the IEEE value of `ρ = div_time / max_iter`:
* `max_iter > 0`: finite non-negative ratio, exact branch;
* `max_iter = 0`, `div_time = 0`: `0.0/0 = nan`, all channels `nan`;
* `max_iter = 0`, `div_time > 0`: `ρ = +inf`, `norm = +inf`, so
  `r = uint8(255·clip(-inf,0,1)) = 0` and `g = b = uint8(255·clip(inf,0,1))
  = 255`;
* `max_iter < 0`, `div_time = 0`: `ρ = -0.0`, `norm = √(-0.0) = -0.0`,
  channels as for `ρ = 0`;
* `max_iter < 0`, `div_time > 0`: `ρ < 0`, `norm = nan`, all channels `nan`.
In every case a value is produced: numpy raises no exception. -/
def color_map_pixel (div_time : ℕ) (max_iter : ℤ) : ℕ × ℕ × ℕ :=
  if 0 < max_iter then finite_rgb ((div_time : ℚ) / (max_iter : ℚ))
  else if div_time = 0 then
    (if max_iter = 0 then nan_cast_rgb else finite_rgb 0)
  else if max_iter = 0 then (0, 255, 255)
  else nan_cast_rgb

/-- Embeds `color_map(div_time, max_iter)` over a whole grid: elementwise
`color_map_pixel`, pure in `(grid, max_iter)`. -/
def color_map (div_time : ℕ → ℕ → ℕ) (max_iter : ℤ) :
    ℕ → ℕ → ℕ × ℕ × ℕ :=
  fun j i => color_map_pixel (div_time j i) max_iter

/-! ## Keyframe Interpolator (src/sritata-site/mandelbrot/zoom_mode.py,
`make_movie_from_dir`, lines 368-407).  The metadata record saved next to
each keyframe PNG carries `x_center`, `y_center`, `scale`, `max_iter`. -/

/-- Keyframe metadata as read by `load_meta` (the four scalar fields the
interpolation uses). -/
structure Meta where
  x_center : ℚ
  y_center : ℚ
  scale : ℚ
  max_iter : ℤ
  deriving DecidableEq

/-- Python `int(q)` applied to a float: truncation toward zero. -/
def py_int (q : ℚ) : ℤ :=
  if 0 ≤ q then ⌊q⌋ else ⌈q⌉

/-- One emitted movie frame, identified by its rendering parameters:
either a saved keyframe image (parameters = its metadata) or an
interpolated frame rendered from the interpolated parameters. -/
inductive Frame where
  | key : Meta → Frame
  | interp : ℚ → ℚ → ℚ → ℤ → Frame
  deriving DecidableEq

/-- Interpolated frames between consecutive keyframes `a` and `b`
(zoom_mode.py lines 388-396): for `s = 1, …, steps`, `t = s / (steps + 1)`
and each scalar is `(1-t)·a + t·b`, with `max_iter` truncated by `int(...)`. -/
def interp_frames (a b : Meta) (steps : ℕ) : List Frame :=
  (List.range steps).map (fun k =>
    let t : ℚ := (k + 1 : ℕ) / ((steps : ℚ) + 1)
    Frame.interp ((1 - t) * a.x_center + t * b.x_center)
      ((1 - t) * a.y_center + t * b.y_center)
      ((1 - t) * a.scale + t * b.scale)
      (py_int ((1 - t) * (a.max_iter : ℚ) + t * (b.max_iter : ℚ))))

/-- Frame sequence emitted by the loop of `make_movie_from_dir`
(zoom_mode.py lines 368-396) when every keyframe image loads and every
metadata record is present: for each index the keyframe's own frame,
followed by the interpolated frames toward the next keyframe when there is
one. -/
def make_movie_frames : List Meta → ℕ → List Frame
  | [], _ => []
  | [a], _ => [Frame.key a]
  | a :: b :: rest, steps =>
    Frame.key a :: (interp_frames a b steps ++ make_movie_frames (b :: rest) steps)

/-! ## Orbit semantics used to state the escape-time properties. -/

/-- One Mandelbrot step `z ← z² + c` on coordinates,
`(x, y) ↦ (x² - y² + x0, 2·x·y + y0)`. -/
def orbit_step (x0 y0 : ℚ) (p : ℚ × ℚ) : ℚ × ℚ :=
  (p.1 * p.1 - p.2 * p.2 + x0, 2 * p.1 * p.2 + y0)

/-- Orbit of the pixel with coordinate `(x0, y0)` starting from `z = 0`. -/
def orbit (x0 y0 : ℚ) (n : ℕ) : ℚ × ℚ :=
  (orbit_step x0 y0)^[n] (0, 0)

/-- Squared magnitude `x² + y²` (the source compares it with `4.0`). -/
def sq_mag (p : ℚ × ℚ) : ℚ :=
  p.1 * p.1 + p.2 * p.2

/-- Iterated per-pixel state of the incremental engine, starting from the
fresh state created by `create_cache`. -/
def iter_state (x0 y0 : ℚ) (m : ℕ) : PixState :=
  (mandelbrot_iter_step x0 y0)^[m] ⟨0, 0, 0, 0⟩

/-! ## Supporting lemmas. -/

/-- Unfolding of the orbit: one Mandelbrot step on the previous value. -/
lemma orbit_succ (x0 y0 : ℚ) (n : ℕ) :
    orbit x0 y0 (n + 1) =
      ((orbit x0 y0 n).1 * (orbit x0 y0 n).1
          - (orbit x0 y0 n).2 * (orbit x0 y0 n).2 + x0,
       2 * (orbit x0 y0 n).1 * (orbit x0 y0 n).2 + y0) := by
  unfold orbit
  rw [Function.iterate_succ_apply']
  rfl

/-- Characterization of the direct escape loop: starting at step `it` on the
orbit value, the result `r` lies in `[it, it + fuel]`, every orbit value
strictly before `r` (from `it` on) has squared magnitude at most `4`, and if
the loop stopped before exhausting the fuel then the orbit escaped at `r`. -/
lemma escape_loop_spec (x0 y0 : ℚ) :
    ∀ (fuel it r : ℕ),
      r = escape_loop x0 y0 (orbit x0 y0 it).1 (orbit x0 y0 it).2 it fuel →
      it ≤ r ∧ r ≤ it + fuel ∧
        (∀ k, it ≤ k → k < r → sq_mag (orbit x0 y0 k) ≤ 4) ∧
        (r < it + fuel → 4 < sq_mag (orbit x0 y0 r)) := by
  intro fuel
  induction fuel with
  | zero =>
    intro it r hr
    simp only [escape_loop] at hr
    subst hr
    exact ⟨le_refl _, by omega, fun k hk1 hk2 => absurd hk2 (by omega),
      fun h => absurd h (by omega)⟩
  | succ n ih =>
    intro it r hr
    simp only [escape_loop] at hr
    by_cases h : (orbit x0 y0 it).1 * (orbit x0 y0 it).1
        + (orbit x0 y0 it).2 * (orbit x0 y0 it).2 ≤ 4
    · rw [if_pos h] at hr
      have harg : escape_loop x0 y0
            ((orbit x0 y0 it).1 * (orbit x0 y0 it).1
              - (orbit x0 y0 it).2 * (orbit x0 y0 it).2 + x0)
            (2 * (orbit x0 y0 it).1 * (orbit x0 y0 it).2 + y0) (it + 1) n
          = escape_loop x0 y0 (orbit x0 y0 (it + 1)).1 (orbit x0 y0 (it + 1)).2
              (it + 1) n := by
        rw [orbit_succ]
      rw [harg] at hr
      obtain ⟨h1, h2, h3, h4⟩ := ih (it + 1) r hr
      refine ⟨by omega, by omega, ?_, ?_⟩
      · intro k hk1 hk2
        rcases Nat.eq_or_lt_of_le hk1 with hk | hk
        · subst hk; exact h
        · exact h3 k hk hk2
      · intro hlt
        exact h4 (by omega)
    · rw [if_neg h] at hr
      subst hr
      refine ⟨le_refl _, by omega, fun k hk1 hk2 => absurd hk2 (by omega), ?_⟩
      intro _
      exact lt_of_not_le h

/-- Invariant of the per-pixel incremental state after `m` steps from the
fresh cache state: while unresolved (`div_time = 0`) the state carries the
orbit value and the step count, and no orbit value up to `m` has escaped;
once resolved, `div_time` records the first escape step (at most `m`),
frozen together with `iters`. -/
lemma iter_state_spec (x0 y0 : ℚ) :
    ∀ m : ℕ,
      ((iter_state x0 y0 m).div_time = 0 →
        (iter_state x0 y0 m).zx = (orbit x0 y0 m).1 ∧
        (iter_state x0 y0 m).zy = (orbit x0 y0 m).2 ∧
        (iter_state x0 y0 m).iters = m ∧
        ∀ k, k ≤ m → sq_mag (orbit x0 y0 k) ≤ 4) ∧
      ((iter_state x0 y0 m).div_time ≠ 0 →
        (iter_state x0 y0 m).iters = (iter_state x0 y0 m).div_time ∧
        (iter_state x0 y0 m).div_time ≤ m ∧
        4 < sq_mag (orbit x0 y0 ((iter_state x0 y0 m).div_time)) ∧
        ∀ k, k < (iter_state x0 y0 m).div_time →
          sq_mag (orbit x0 y0 k) ≤ 4) := by
  intro m
  induction m with
  | zero =>
    constructor
    · intro _
      refine ⟨rfl, rfl, rfl, ?_⟩
      intro k hk
      interval_cases k
      norm_num [sq_mag, orbit]
    · intro h
      exact absurd rfl h
  | succ m ih =>
    have hsucc : iter_state x0 y0 (m + 1)
        = mandelbrot_iter_step x0 y0 (iter_state x0 y0 m) := by
      unfold iter_state
      rw [Function.iterate_succ_apply']
    by_cases hd : (iter_state x0 y0 m).div_time = 0
    · obtain ⟨hzx, hzy, hit, hsafe⟩ := ih.1 hd
      rw [hsucc]
      unfold mandelbrot_iter_step
      rw [if_pos hd]
      dsimp only
      rw [hzx, hzy, hit]
      by_cases hesc : 4 < ((orbit x0 y0 m).1 * (orbit x0 y0 m).1
            - (orbit x0 y0 m).2 * (orbit x0 y0 m).2 + x0)
          * ((orbit x0 y0 m).1 * (orbit x0 y0 m).1
            - (orbit x0 y0 m).2 * (orbit x0 y0 m).2 + x0)
          + (2 * (orbit x0 y0 m).1 * (orbit x0 y0 m).2 + y0)
          * (2 * (orbit x0 y0 m).1 * (orbit x0 y0 m).2 + y0)
      · rw [if_pos hesc]
        constructor
        · intro h
          simp at h
        · intro _
          refine ⟨rfl, le_refl _, ?_, ?_⟩
          · show 4 < sq_mag (orbit x0 y0 (m + 1))
            rw [orbit_succ]
            exact hesc
          · intro k hk
            exact hsafe k (by omega)
      · rw [if_neg hesc]
        constructor
        · intro _
          refine ⟨?_, ?_, rfl, ?_⟩
          · show _ = (orbit x0 y0 (m + 1)).1
            rw [orbit_succ]
          · show _ = (orbit x0 y0 (m + 1)).2
            rw [orbit_succ]
          · intro k hk
            rcases Nat.eq_or_lt_of_le hk with hk2 | hk2
            · subst hk2
              show sq_mag (orbit x0 y0 (m + 1)) ≤ 4
              rw [orbit_succ]
              exact le_of_not_lt hesc
            · exact hsafe k (by omega)
        · intro h
          exact absurd rfl h
    · have hstep : iter_state x0 y0 (m + 1) = iter_state x0 y0 m := by
        rw [hsucc]
        unfold mandelbrot_iter_step
        rw [if_neg hd]
      rw [hstep]
      obtain ⟨h1, h2, h3, h4⟩ := ih.2 hd
      exact ⟨fun h => absurd h hd, fun _ => ⟨h1, by omega, h3, h4⟩⟩

/-- Uniqueness of the capped first-escape value: two numbers that are both
at most `M`, below which `Q` never holds, and at which `Q` holds unless the
cap was reached, must be equal. -/
lemma first_escape_unique {Q : ℕ → Prop} {M r1 r2 : ℕ}
    (h1 : r1 ≤ M) (h2 : ∀ k, k < r1 → ¬ Q k) (h3 : r1 < M → Q r1)
    (h4 : r2 ≤ M) (h5 : ∀ k, k < r2 → ¬ Q k) (h6 : r2 < M → Q r2) :
    r1 = r2 := by
  rcases lt_trichotomy r1 r2 with h | h | h
  · exact absurd (h3 (lt_of_lt_of_le h h4)) (h5 r1 h)
  · exact h
  · exact absurd (h6 (lt_of_lt_of_le h h1)) (h2 r2 h)

/-- Per-pixel equivalence of one fresh incremental run and the direct escape
loop: `_mandelbrot_iter` over `M` steps from the freshly created state,
followed by finalization, computes exactly the value of the direct engine's
while loop with `max_iter = M`. -/
lemma incr_eq_direct (x0 y0 : ℚ) (M : ℕ) :
    (mandelbrot_iter_pix x0 y0 M ⟨0, 0, 0, 0⟩).div_time
      = escape_loop x0 y0 0 0 0 M := by
  obtain ⟨-, hle, hsafe, hesc⟩ :=
    escape_loop_spec x0 y0 M 0 (escape_loop x0 y0 0 0 0 M) rfl
  show (finalize (iter_state x0 y0 M)).div_time = _
  by_cases hd : (iter_state x0 y0 M).div_time = 0
  · obtain ⟨-, -, hit, hsafe2⟩ := (iter_state_spec x0 y0 M).1 hd
    have hfin : (finalize (iter_state x0 y0 M)).div_time = M := by
      unfold finalize
      rw [if_pos hd]
      exact hit
    rw [hfin]
    by_contra hne
    have hlt : escape_loop x0 y0 0 0 0 M < M := by omega
    exact absurd (hsafe2 _ (by omega)) (not_le.mpr (hesc (by omega)))
  · obtain ⟨-, hdM, hQ, hsafe2⟩ := (iter_state_spec x0 y0 M).2 hd
    have hfin : (finalize (iter_state x0 y0 M)).div_time
        = (iter_state x0 y0 M).div_time := by
      unfold finalize
      rw [if_neg hd]
    rw [hfin]
    exact first_escape_unique (Q := fun k => 4 < sq_mag (orbit x0 y0 k))
      hdM (fun k hk => not_lt.mpr (hsafe2 k hk)) (fun _ => hQ)
      (by omega) (fun k hk => not_lt.mpr (hsafe k (by omega) hk))
      (fun h => hesc (by omega))

/-- Length of the interpolated segment between two keyframes. -/
lemma interp_frames_length (a b : Meta) (steps : ℕ) :
    (interp_frames a b steps).length = steps := by
  simp [interp_frames]

/-- Frame count of the movie loop: `1 + (N - 1)·(steps + 1)` frames for any
nonempty keyframe list of length `N`. -/
lemma make_movie_frames_length :
    ∀ (metas : List Meta) (steps : ℕ), metas ≠ [] →
      (make_movie_frames metas steps).length
        = 1 + (metas.length - 1) * (steps + 1)
  | [], _, h => absurd rfl h
  | [_], _, _ => by simp [make_movie_frames]
  | a :: b :: rest, steps, _ => by
    have ih := make_movie_frames_length (b :: rest) steps (by simp)
    simp only [make_movie_frames, List.length_cons, List.length_append,
      interp_frames_length, ih, Nat.add_sub_cancel]
    ring

/-- Floor of the square root of `0` is `0`. -/
lemma sqrt_floor_zero : sqrt_floor 0 = 0 := by
  unfold sqrt_floor
  norm_num

/-- Channel values at ratio `0` (`norm = 0`): red and green saturate to
`255` (`3·(1-0) ≥ 1` and `3·|0-0.5| = 1.5 ≥ 1`), blue is `0`. -/
lemma finite_rgb_zero : finite_rgb 0 = (255, 255, 0) := by
  rw [finite_rgb, r_channel, g_channel, b_channel]
  rw [if_neg (by norm_num), if_pos (by norm_num), if_pos (by norm_num),
    if_neg (by norm_num)]
  rw [show (585225 : ℚ) * 0 = 0 by norm_num, sqrt_floor_zero]

/-- Channel values at ratio `1` (`norm = 1`): red clips to `0`, green
saturates to `255` (`3·|1-0.5| = 1.5 ≥ 1`), blue saturates to `255`. -/
lemma finite_rgb_one : finite_rgb 1 = (0, 255, 255) := by
  rw [finite_rgb, r_channel, g_channel, b_channel]
  rw [if_pos (by norm_num), if_pos (by norm_num), if_pos (by norm_num)]

/-! ## Claim theorems. -/

/-- C1 (code bug): chaining two extends does NOT reproduce the direct run.
Concrete failing input: viewport `width = height = 2`, `x_center = y_center
= 1`, `scale = 1`, targets `t1 = 1`, `t2 = 2`.  Pixel `(0,0)` has coordinate
`c = 0` and never escapes, so a direct run with `max_iter = 2` reports `2`;
but after the first extend the finalization pass (lines 71-75) stored
`div_time = iters = 1` for this unresolved pixel, so the second extend's
`div_time == 0` guard (line 59) skips every pixel and the chained result
stays at the stale value `1`.  This defeats the module's own stated purpose
(`Continue computation using values in cache`, lines 118-121) and the
resumable use in zoom_mode.py (`compute_initial_and_cache` then
`compute_from_cache` with a 25% higher bound). -/
theorem C1_chained_extend_stale :
    (create_cache 2 2 1 1 1).map
        (fun c => (compute_from_cache (compute_from_cache c 1) 2).div_time 0 0)
      = some 1
    ∧ (mandelbrot 2 2 2 1 1 1).map (fun g => g 0 0) = some 2 := by
  constructor
  · norm_num [create_cache, build_grid, compute_from_cache, mandelbrot_iter,
      mandelbrot_iter_pix, mandelbrot_iter_step, finalize, grid_x0, grid_y0]
  · norm_num [mandelbrot, grid_x0, grid_y0, escape_loop]

/-- C2 counterexample: a cache built for viewport A (`x_center = 10`) is
extended while the caller's current viewport is B (`x_center = 0`); no
error of any kind is raised (the computation completes and returns a grid)
and the returned `div_time` at pixel `(0,0)` is `1` — the value for A's
geometry — whereas the direct engine on B computes `3`.  The mismatched
extend is silently miscomputed, not rejected: no `CacheGeometryMismatch`
(or any other check) exists in `compute_from_cache`. -/
theorem C2_mismatch_counterexample :
    (create_cache 2 2 10 0 1).map
        (fun c => (compute_from_cache c 3).div_time 0 0) = some 1
    ∧ (mandelbrot 2 2 3 0 0 1).map (fun g => g 0 0) = some 3 := by
  constructor
  · norm_num [create_cache, build_grid, compute_from_cache, mandelbrot_iter,
      mandelbrot_iter_pix, mandelbrot_iter_step, finalize, grid_x0, grid_y0,
      show (Int.toNat 3) = 3 from rfl, Function.iterate_succ_apply',
      Function.iterate_zero_apply]
  · norm_num [mandelbrot, grid_x0, grid_y0, escape_loop]

/-- C2 (amended): `compute_from_cache` takes no geometry argument and
performs no geometry validation at all: it always computes from the cache's
own stored coordinate grids, which it returns unchanged, and it is a total
function (the source has no raise path), so no `CacheGeometryMismatch`
error can ever be signalled. -/
theorem C2_no_geometry_check (c : Cache) (t : ℤ) :
    (compute_from_cache c t).x0 = c.x0 ∧ (compute_from_cache c t).y0 = c.y0 := by
  unfold compute_from_cache
  split
  · exact ⟨rfl, rfl⟩
  · unfold mandelbrot_iter
    exact ⟨rfl, rfl⟩

/-- C3 counterexample: the claim fails in both directions.  The viewport
`width = height = 1`, `max_iter = 10`, `scale = 1` satisfies all four
validity constraints, yet `mandelbrot` fails on it (`ZeroDivisionError`
from the unguarded `j / (height - 1)` division) — and the failure is a
raw exception, not an `InvalidViewport` signal.  Conversely the invalid
viewport `max_iter = 0` (with `width = height = 2`) is not rejected:
`mandelbrot` succeeds and returns a grid. -/
theorem C3_counterexample :
    mandelbrot 1 1 10 0 0 1 = none ∧ (mandelbrot 2 2 0 0 0 1).isSome = true :=
  ⟨rfl, rfl⟩

/-- C3 (amended): `mandelbrot` performs no viewport validation and defines
no `InvalidViewport` error.  It fails — with a bare `ZeroDivisionError` —
exactly when `width = 0`, or `height = 1`, or `width = 1 ∧ height ≥ 2`
(the unguarded grid divisions), independently of `max_iter` and `scale`;
on every other geometry it succeeds, including invalid ones such as
`max_iter ≤ 0` or `scale ≤ 0`. -/
theorem C3_failure_characterization (w h : ℕ) (m : ℤ) (xc yc sc : ℚ) :
    mandelbrot w h m xc yc sc = none ↔ (w = 0 ∨ h = 1 ∨ (w = 1 ∧ 2 ≤ h)) := by
  unfold mandelbrot
  split <;> simp_all

/-- C4 counterexample: the core Grid Builder `_build_grid` does NOT guard
its divisions with `max(1, ·)`: it raises `ZeroDivisionError` for
`width = 1` (with `height = 2`) and for `height = 1`, both valid
viewport geometries, so an error condition does exist. -/
theorem C4_counterexample :
    build_grid 1 2 0 0 1 = none ∧ build_grid 2 1 0 0 1 = none :=
  ⟨rfl, rfl⟩

/-- C4 (amended): the `max(1, width-1)` / `max(1, height-1)` guard exists
only in the serverless engine of src/api/mandelbrot.py, which is total for
every `width > 0` (its only failure is the `scale * height / width`
division at `width = 0`); the core `_build_grid` of
src/mandelbrot/mandelbrot.py divides by `width - 1` and `height - 1`
unguarded and fails exactly when `width = 0`, `height = 1`, or
`width = 1 ∧ height ≥ 2`. -/
theorem C4_guarded_api_total :
    (∀ (w h : ℕ) (m : ℤ) (xc yc sc : ℚ), 0 < w →
        (api_mandelbrot w h m xc yc sc).isSome = true)
    ∧ (∀ (w h : ℕ) (xc yc sc : ℚ),
        build_grid w h xc yc sc = none ↔ (w = 0 ∨ h = 1 ∨ (w = 1 ∧ 2 ≤ h))) := by
  constructor
  · intro w h m xc yc sc hw
    unfold api_mandelbrot
    rw [if_neg (by omega)]
    rfl
  · intro w h xc yc sc
    unfold build_grid
    split <;> simp_all

/-- C4 witness: the guarded API engine succeeds on the 1×1 viewport that
makes the core `_build_grid` fail. -/
theorem C4_witness : (api_mandelbrot 1 1 5 0 0 1).isSome = true :=
  C4_guarded_api_total.1 1 1 5 0 0 1 (by decide)

/-- C5: for a valid viewport, every entry of the grid returned by the
Escape-Time Engine is at most `max_iter` (non-negativity is by type: entries
are `ℕ`), every orbit value strictly before the recorded iteration has
squared magnitude at most 4 (i.e. magnitude at most 2), and if the recorded
value is below `max_iter` then the orbit escaped exactly there; so the entry
is the iteration at which the squared magnitude first exceeded 4, or
`max_iter` if that never happened within the bound. -/
theorem C5_iteration_grid_bounds (w h : ℕ) (m : ℤ) (xc yc sc : ℚ)
    (g : ℕ → ℕ → ℕ) (hw : 0 < w) (hh : 0 < h) (hm : 0 < m) (hsc : 0 < sc)
    (hg : mandelbrot w h m xc yc sc = some g) (j i : ℕ) (hj : j < h) (hi : i < w) :
    g j i ≤ m.toNat
    ∧ (∀ k, k < g j i →
        sq_mag (orbit (grid_x0 w xc sc i) (grid_y0 w h yc sc j) k) ≤ 4)
    ∧ (g j i < m.toNat →
        4 < sq_mag (orbit (grid_x0 w xc sc i) (grid_y0 w h yc sc j) (g j i))) := by
  unfold mandelbrot at hg
  split at hg
  · cases hg
  · rw [Option.some.injEq] at hg
    subst hg
    dsimp only
    obtain ⟨-, h2, h3, h4⟩ :=
      escape_loop_spec (grid_x0 w xc sc i) (grid_y0 w h yc sc j) m.toNat 0
        (escape_loop (grid_x0 w xc sc i) (grid_y0 w h yc sc j) 0 0 0 m.toNat) rfl
    exact ⟨by simpa using h2, fun k hk => h3 k (Nat.zero_le k) hk,
      fun hlt => h4 (by omega)⟩

/-- C5 witness: the theorem instantiated at the valid viewport
`width = height = 2`, `max_iter = 1`, `x_center = y_center = 0`,
`scale = 1`, at pixel `(0, 0)`. -/
theorem C5_witness :
    escape_loop (grid_x0 2 0 1 0) (grid_y0 2 2 0 1 0) 0 0 0 (Int.toNat 1)
        ≤ Int.toNat 1
    ∧ (∀ k, k < escape_loop (grid_x0 2 0 1 0) (grid_y0 2 2 0 1 0) 0 0 0 (Int.toNat 1) →
        sq_mag (orbit (grid_x0 2 0 1 0) (grid_y0 2 2 0 1 0) k) ≤ 4)
    ∧ (escape_loop (grid_x0 2 0 1 0) (grid_y0 2 2 0 1 0) 0 0 0 (Int.toNat 1)
          < Int.toNat 1 →
        4 < sq_mag (orbit (grid_x0 2 0 1 0) (grid_y0 2 2 0 1 0)
          (escape_loop (grid_x0 2 0 1 0) (grid_y0 2 2 0 1 0) 0 0 0 (Int.toNat 1)))) :=
  C5_iteration_grid_bounds 2 2 1 0 0 1 _ (by decide) (by decide) (by decide)
    (by norm_num) rfl 0 0 (by decide) (by decide)

/-- C6: the one-extend special case of the incremental contract holds.
For every viewport on which `create_cache` (and hence the direct engine)
succeeds and every single target `T > 0`, extending the fresh cache once to
`T` yields, at every pixel, exactly the direct engine's `div_time` for
`max_iter = T`. -/
theorem C6_single_extend_refines (w h : ℕ) (xc yc sc : ℚ) (T : ℤ)
    (c : Cache) (g : ℕ → ℕ → ℕ) (hT : 0 < T)
    (hc : create_cache w h xc yc sc = some c)
    (hg : mandelbrot w h T xc yc sc = some g)
    (j i : ℕ) (hj : j < h) (hi : i < w) :
    (compute_from_cache c T).div_time j i = g j i := by
  unfold create_cache build_grid at hc
  unfold mandelbrot at hg
  split at hc
  · simp at hc
  · rename_i hcond
    rw [if_neg hcond, Option.some.injEq] at hg
    rw [Option.map_some', Option.some.injEq] at hc
    subst hc
    subst hg
    unfold compute_from_cache
    dsimp only
    rw [if_neg (by omega : ¬ T ≤ (0 : ℤ))]
    show (mandelbrot_iter _ 0 T).div_time j i = _
    unfold mandelbrot_iter
    dsimp only
    rw [sub_zero]
    exact incr_eq_direct (grid_x0 w xc sc i) (grid_y0 w h yc sc j) T.toNat

/-- C6 witness: the theorem instantiated at the viewport
`width = height = 2`, `x_center = y_center = 0`, `scale = 1` and the single
target `T = 2`, at pixel `(0, 0)`. -/
theorem C6_witness :
    (compute_from_cache
      { zx := fun _ _ => 0, zy := fun _ _ => 0, iters := fun _ _ => 0,
        x0 := fun _ i => grid_x0 2 0 1 i, y0 := fun j _ => grid_y0 2 2 0 1 j,
        div_time := fun _ _ => 0, current_iter := 0 } 2).div_time 0 0
    = escape_loop (grid_x0 2 0 1 0) (grid_y0 2 2 0 1 0) 0 0 0 (Int.toNat 2) :=
  C6_single_extend_refines 2 2 0 0 1 2 _ _ (by decide) rfl rfl 0 0
    (by decide) (by decide)

/-- C7: a call of `compute_from_cache` with `target_iter ≤ current_iter`
(including any negative target) returns the whole cache unchanged without
error, and an immediately repeated call with the same target is a no-op:
`div_time`, `current_iter` and every other field are unchanged. -/
theorem C7_extend_noop_idempotent :
    (∀ (c : Cache) (t : ℤ), t ≤ c.current_iter → compute_from_cache c t = c)
    ∧ (∀ (c : Cache) (t : ℤ),
        compute_from_cache (compute_from_cache c t) t = compute_from_cache c t) := by
  have hnoop : ∀ (c : Cache) (t : ℤ), t ≤ c.current_iter →
      compute_from_cache c t = c := by
    intro c t h
    unfold compute_from_cache
    rw [if_pos h]
  refine ⟨hnoop, ?_⟩
  intro c t
  by_cases h : t ≤ c.current_iter
  · rw [hnoop c t h, hnoop c t h]
  · have h1 : compute_from_cache c t
        = { mandelbrot_iter c c.current_iter t with current_iter := t } := by
      unfold compute_from_cache
      rw [if_neg h]
    rw [h1]
    exact hnoop _ t (le_refl t)

/-- C7 witness: the no-op branch at a concrete cache (`current_iter = 0`)
and the negative target `-1`. -/
theorem C7_witness :
    compute_from_cache
      { zx := fun _ _ => 0, zy := fun _ _ => 0, iters := fun _ _ => 0,
        x0 := fun _ _ => 0, y0 := fun _ _ => 0, div_time := fun _ _ => 0,
        current_iter := 0 } (-1)
    = { zx := fun _ _ => 0, zy := fun _ _ => 0, iters := fun _ _ => 0,
        x0 := fun _ _ => 0, y0 := fun _ _ => 0, div_time := fun _ _ => 0,
        current_iter := 0 } :=
  C7_extend_noop_idempotent.1 _ (-1) (by decide)

/-- C8 counterexample: at both scenario inputs the green channel is `255`,
not `≈127`: for `div_time = 0`, `norm = 0` and
`g = 255·clip(3·|0 - 0.5|, 0, 1) = 255·clip(1.5, 0, 1) = 255`; for
`div_time = 100 = max_iter`, `norm = 1` and `g = 255·clip(1.5, 0, 1) = 255`
as well.  The claimed `g ≈ 127` contradicts the claim's own channel
formula, which the code implements. -/
theorem C8_counterexample :
    (color_map (fun _ _ => 0) 100 0 0).2.1 = 255
    ∧ (color_map (fun _ _ => 100) 100 0 0).2.1 = 255
    ∧ (255 : ℕ) ≠ 127 := by
  refine ⟨?_, ?_, by decide⟩
  · simp only [color_map]
    rw [color_map_pixel, if_pos (by norm_num : (0:ℤ) < 100)]
    rw [show (((0:ℕ):ℚ) / ((100:ℤ):ℚ)) = 0 by norm_num]
    rw [finite_rgb_zero]
  · simp only [color_map]
    rw [color_map_pixel, if_pos (by norm_num : (0:ℤ) < 100)]
    rw [show (((100:ℕ):ℚ) / ((100:ℤ):ℚ)) = 1 by norm_num]
    rw [finite_rgb_one]

/-- C8 (amended): with the code's channel formulas
(`norm = √(div_time/max_iter)`, `r = 255·clip(3·(1-norm),0,1)`,
`g = 255·clip(3·|norm-0.5|,0,1)`, `b = 255·clip(3·norm,0,1)`),
`div_time = 0, max_iter = 100` yields `(r, g, b) = (255, 255, 0)` and
`div_time = 100, max_iter = 100` yields `(r, g, b) = (0, 255, 255)`:
the green channel saturates to `255` at both endpoints. -/
theorem C8_endpoint_colors :
    color_map_pixel 0 100 = (255, 255, 0)
    ∧ color_map_pixel 100 100 = (0, 255, 255) := by
  constructor
  · rw [color_map_pixel, if_pos (by norm_num : (0:ℤ) < 100)]
    rw [show (((0:ℕ):ℚ) / ((100:ℤ):ℚ)) = 0 by norm_num]
    exact finite_rgb_zero
  · rw [color_map_pixel, if_pos (by norm_num : (0:ℤ) < 100)]
    rw [show (((100:ℕ):ℚ) / ((100:ℤ):ℚ)) = 1 by norm_num]
    exact finite_rgb_one

/-- C9 counterexample: `color_map` with `max_iter = 0` on a grid of `50`s is
not an error: numpy elementwise division by the zero scalar only emits a
`RuntimeWarning` and produces `ρ = +inf`, `norm = +inf`, so the call
completes and returns the well-formed pixel `(0, 255, 255)` — no
`InvalidIterationBound` (or any exception) reaches the caller. -/
theorem C9_counterexample :
    color_map (fun _ _ => 50) 0 0 0 = (0, 255, 255) := rfl

/-- C9 (amended): `color_map` performs no validation of `max_iter` and has
no error path.  For `max_iter = 0` a nonzero `div_time` yields the
saturated pixel `(0, 255, 255)` (ratio `+inf`); for `max_iter < 0` the
pixel with `div_time = 0` yields `(255, 255, 0)` (ratio `-0.0`, treated as
`0` by `sqrt`); the remaining cases produce NaN channels.  In every case a
well-formed grid is returned and nothing is signalled to the caller. -/
theorem C9_no_validation :
    (∀ d : ℕ, d ≠ 0 → color_map_pixel d 0 = (0, 255, 255))
    ∧ (∀ m : ℤ, m < 0 → color_map_pixel 0 m = (255, 255, 0)) := by
  constructor
  · intro d hd
    unfold color_map_pixel
    rw [if_neg (by omega), if_neg hd, if_pos rfl]
  · intro m hm
    rw [color_map_pixel, if_neg (by omega), if_pos rfl, if_neg (by omega)]
    exact finite_rgb_zero

/-- C9 witness: the first part of the theorem at `div_time = 50`. -/
theorem C9_witness : color_map_pixel 50 0 = (0, 255, 255) :=
  C9_no_validation.1 50 (by decide)

/-- C10: the interpolation loop of `make_movie_from_dir` emits exactly
`1 + (N-1)·(steps+1)` frames for `N ≥ 2` keyframes with metadata; for a
two-keyframe path the first emitted frame is keyframe `A`'s own frame, the
last is `B`'s, the count is `steps + 2`, and the `k`-th interpolated frame
(for `k < steps`, i.e. `s = k+1` ranging over `1..steps`) uses
`t = s/(steps+1)` to linearly interpolate `x_center`, `y_center`, `scale`
and `max_iter` (the latter converted to `int`, i.e. truncated toward zero,
by `int(...)`). -/
theorem C10_keyframe_interpolation :
    (∀ (metas : List Meta) (steps : ℕ), 2 ≤ metas.length →
      (make_movie_frames metas steps).length
        = 1 + (metas.length - 1) * (steps + 1))
    ∧ (∀ (a b : Meta) (steps : ℕ),
        (make_movie_frames [a, b] steps).head? = some (Frame.key a)
        ∧ (make_movie_frames [a, b] steps).getLast? = some (Frame.key b)
        ∧ (make_movie_frames [a, b] steps).length = steps + 2
        ∧ ∀ k, k < steps → (interp_frames a b steps)[k]? =
            some (Frame.interp
              ((1 - ((k + 1 : ℕ) : ℚ) / ((steps : ℚ) + 1)) * a.x_center
                + (((k + 1 : ℕ) : ℚ) / ((steps : ℚ) + 1)) * b.x_center)
              ((1 - ((k + 1 : ℕ) : ℚ) / ((steps : ℚ) + 1)) * a.y_center
                + (((k + 1 : ℕ) : ℚ) / ((steps : ℚ) + 1)) * b.y_center)
              ((1 - ((k + 1 : ℕ) : ℚ) / ((steps : ℚ) + 1)) * a.scale
                + (((k + 1 : ℕ) : ℚ) / ((steps : ℚ) + 1)) * b.scale)
              (py_int ((1 - ((k + 1 : ℕ) : ℚ) / ((steps : ℚ) + 1)) * (a.max_iter : ℚ)
                + (((k + 1 : ℕ) : ℚ) / ((steps : ℚ) + 1)) * (b.max_iter : ℚ))))) := by
  constructor
  · intro metas steps hlen
    exact make_movie_frames_length metas steps (List.length_pos.mp (by omega))
  · intro a b steps
    refine ⟨rfl, ?_, ?_, ?_⟩
    · have hsplit : make_movie_frames [a, b] steps
          = (Frame.key a :: interp_frames a b steps) ++ [Frame.key b] := by
        simp [make_movie_frames]
      rw [hsplit, List.getLast?_concat]
    · simp [make_movie_frames, interp_frames_length]
    · intro k hk
      simp [interp_frames, List.getElem?_map, hk]

/-- C10 witness: two keyframes, one interpolation step: three frames
(`1 + (2-1)·(1+1) = 3`). -/
theorem C10_witness :
    (make_movie_frames [⟨0, 0, 1, 100⟩, ⟨1, 1, 2, 200⟩] 1).length = 3 := by
  have h := C10_keyframe_interpolation.1
    [⟨0, 0, 1, 100⟩, ⟨1, 1, 2, 200⟩] 1 (by decide)
  simpa using h
